import Mathlib

/-!
Verification of the Query Understanding & Conversational Betting Engine
(`src/app/api_client.py`, `src/app/nlp_processor.py`, `src/app/chatbot.py`).

Upstream JSON responses are modelled by `JValue`; external collaborators
(the HTTP transport, the generative model, the simulated bet placement)
are oracle parameters.  Python exceptions are modelled with
`Except String`; Python truthiness with `pyTruthy`.
-/

/-- JSON-like values as delivered by the upstream sports-data service and
handled by the Python code (dicts are association lists in key order). -/
inductive JValue where
  | jnull
  | jbool (b : Bool)
  | jnum (q : ℚ)
  | jstr (s : String)
  | jarr (elems : List JValue)
  | jobj (fields : List (String × JValue))

/-- Python dict lookup `d.get(k)`: first binding of the key, if any. -/
def jGet (fields : List (String × JValue)) (k : String) : Option JValue :=
  (fields.find? (fun p => p.1 == k)).map (fun p => p.2)

/-- `isinstance(v, list)` refinement: the elements when `v` is a JSON array. -/
def asList? : JValue → Option (List JValue)
  | .jarr xs => some xs
  | _ => none

/-- Python truthiness of a JSON value (`bool(v)`). -/
def pyTruthy : JValue → Bool
  | .jnull => false
  | .jbool b => b
  | .jnum q => q != 0
  | .jstr s => s != ""
  | .jarr xs => !xs.isEmpty
  | .jobj fs => !fs.isEmpty

/-- Python `a or b` on optional lookup results: keep `a` when truthy,
otherwise evaluate to `b` (the last operand is returned even when falsy). -/
def pyGetOr (a b : Option JValue) : Option JValue :=
  match a with
  | some v => if pyTruthy v then some v else b
  | none => b

/-- Python `str(v)`.  String payloads are returned exactly; the renderings of
non-string values only approximate CPython's `str` (they are never
substring-matched against team names in any input constrained by the spec). -/
def pyStr : JValue → String
  | .jstr s => s
  | .jnull => "None"
  | .jbool true => "True"
  | .jbool false => "False"
  | .jnum q => reprStr q
  | .jarr _ => "[...]"
  | .jobj _ => "\x7b...\x7d"

/-- ASCII/Spanish lower-casing of one character, mirroring `str.lower` on the
alphabet that occurs in the synonym tables and keyword lists. -/
def pyToLower (c : Char) : Char :=
  if 'A' ≤ c && c ≤ 'Z' then Char.ofNat (c.toNat + 32)
  else if c = 'Á' then 'á'
  else if c = 'É' then 'é'
  else if c = 'Í' then 'í'
  else if c = 'Ó' then 'ó'
  else if c = 'Ú' then 'ú'
  else if c = 'Ñ' then 'ñ'
  else if c = 'Ü' then 'ü'
  else c

/-- Python `s.lower()`. -/
def pyLower (s : String) : String := String.mk (s.data.map pyToLower)

/-- Contiguous-sublist test on character lists. -/
def listInfixOf (sub : List Char) : List Char → Bool
  | [] => sub.isEmpty
  | c :: tl => sub.isPrefixOf (c :: tl) || listInfixOf sub tl

/-- Python `sub in s` for strings: substring containment. -/
def strIn (sub s : String) : Bool := listInfixOf sub.data s.data

/-- Python dict indexing `v[k]`: raises `KeyError` when the key is absent and
`TypeError` when the value is not a dict. -/
def jGetExn (v : JValue) (k : String) : Except String JValue :=
  match v with
  | .jobj fs =>
      match jGet fs k with
      | some x => .ok x
      | none => .error ("KeyError: " ++ k)
  | _ => .error "TypeError: not subscriptable"

/-- Python `v.lower()` without a `str(...)` wrapper: raises `AttributeError`
on non-strings (`nlp_processor.get_relevant_data` does this). -/
def lowerExn : JValue → Except String String
  | .jstr s => .ok (pyLower s)
  | _ => .error "AttributeError: lower"

/-- Demonstration fixtures returned by `SportsAPIClient.get_demo_data` for
endpoint `/sports/fixtures`. -/
def demo_fixtures : List JValue :=
  [ .jobj [("id", .jnum 1), ("home_team", .jstr "Barcelona"),
           ("away_team", .jstr "Real Madrid"), ("date", .jstr "2024-03-20"),
           ("time", .jstr "20:00"), ("tournament", .jstr "La Liga"),
           ("status", .jstr "Scheduled")],
    .jobj [("id", .jnum 2), ("home_team", .jstr "Liverpool"),
           ("away_team", .jstr "Manchester City"), ("date", .jstr "2024-03-21"),
           ("time", .jstr "19:45"), ("tournament", .jstr "Premier League"),
           ("status", .jstr "Scheduled")],
    .jobj [("id", .jnum 3), ("home_team", .jstr "New York Yankees"),
           ("away_team", .jstr "Boston Red Sox"), ("date", .jstr "2024-03-22"),
           ("time", .jstr "18:05"), ("tournament", .jstr "MLB"),
           ("status", .jstr "Scheduled")],
    .jobj [("id", .jnum 4), ("home_team", .jstr "LA Lakers"),
           ("away_team", .jstr "Chicago Bulls"), ("date", .jstr "2024-03-23"),
           ("time", .jstr "20:30"), ("tournament", .jstr "NBA"),
           ("status", .jstr "Scheduled")] ]

/-- Demonstration odds returned by `SportsAPIClient.get_demo_data` for
endpoint `/sports/odds`. -/
def demo_odds : List JValue :=
  [ .jobj [("fixture_id", .jnum 1), ("home_team", .jstr "Barcelona"),
           ("away_team", .jstr "Real Madrid"), ("status", .jstr "Active"),
           ("odds", .jobj [("home_win", .jnum (21/10)), ("draw", .jnum (32/10)),
                           ("away_win", .jnum (35/10))])],
    .jobj [("fixture_id", .jnum 3), ("home_team", .jstr "New York Yankees"),
           ("away_team", .jstr "Boston Red Sox"), ("status", .jstr "Active"),
           ("odds", .jobj [("home_win", .jnum (18/10)), ("away_win", .jnum 2)])],
    .jobj [("fixture_id", .jnum 4), ("home_team", .jstr "LA Lakers"),
           ("away_team", .jstr "Chicago Bulls"), ("status", .jstr "Active"),
           ("odds", .jobj [("home_win", .jnum (15/10)), ("away_win", .jnum (25/10))])] ]

/-- Emptiness guard of `get_fixtures`: a dict answer with `totalResults == 0`. -/
def totalResultsZero : JValue → Bool
  | .jobj fs =>
      (match jGet fs "totalResults" with
       | some (.jnum q) => q == 0
       | _ => false)
  | _ => false

/-- `SportsAPIClient.get_fixtures` after `make_request`: the argument is the
upstream response (`none` models absence: transport error, timeout, non-200,
non-JSON).  Shape normalization of `api_client.py` lines 42-90. -/
def get_fixtures (result : Option JValue) : List JValue :=
  match result with
  | none => demo_fixtures
  | some r =>
    if totalResultsZero r then demo_fixtures
    else
      match r with
      | .jarr xs => xs
      | .jobj fs =>
          match (["fixtures", "data", "matches", "events", "games"].findSome?
                   (fun k => (jGet fs k).bind asList?)) with
          | some xs => xs
          | none =>
              match fs.findSome? (fun p => asList? p.2) with
              | some xs => xs
              | none => demo_fixtures
      | _ => demo_fixtures

/-- Inactivity guard of `get_odds`: a dict answer with status `Inactive`. -/
def statusInactive : JValue → Bool
  | .jobj fs =>
      (match jGet fs "status" with
       | some (.jstr s) => s == "Inactive"
       | _ => false)
  | _ => false

/-- `SportsAPIClient.get_odds` after `make_request` (`api_client.py` lines
100-140): a list is returned as is, a dict is wrapped as a one-element list,
anything else (or absence, or a dict with status `Inactive`) degrades to the
demonstration odds. -/
def get_odds (result : Option JValue) : List JValue :=
  match result with
  | none => demo_odds
  | some r =>
    if statusInactive r then demo_odds
    else
      match r with
      | .jarr xs => xs
      | .jobj fs => [.jobj fs]
      | _ => demo_odds

example : get_fixtures (some (.jobj [("matches", .jarr [.jnum 7])])) = [.jnum 7] := rfl
example : get_fixtures none = demo_fixtures := rfl
example : get_odds (some (.jobj [("odds", .jarr [])]))
    = [.jobj [("odds", .jarr [])]] := rfl

/-- Team synonym table of `NLPProcessor._load_team_synonyms`, in dict
insertion order. -/
def team_synonyms : List (String × List String) :=
  [ ("barcelona", ["barça", "barca", "fc barcelona", "blaugrana"]),
    ("real madrid", ["real", "rm", "realmadrid", "madrid", "merengues"]),
    ("atletico madrid", ["atlético de madrid", "atletico", "atm", "atlético madrid", "atleti"]),
    ("lakers", ["los angeles lakers", "la lakers"]),
    ("celtics", ["boston celtics"]),
    ("bayern munich", ["bayern", "bayern múnich", "bayern munich"]),
    ("psg", ["paris saint germain", "paris sg"]),
    ("manchester city", ["man city", "mancity"]),
    ("liverpool", ["liverpool fc", "the reds"]),
    ("river plate", ["river", "riverplate"]),
    ("boca juniors", ["boca", "bocajuniors", "xeneizes"]) ]

/-- Tournament synonym table of `NLPProcessor._load_tournament_synonyms`. -/
def tournament_synonyms : List (String × List String) :=
  [ ("champions league", ["uefa champions league", "champions", "ucl"]),
    ("premier league", ["premier", "epl", "english premier league"]),
    ("liga española", ["la liga", "primera división", "laliga"]),
    ("nba", ["nba", "national basketball association"]),
    ("bundesliga", ["bundesliga", "liga alemana"]),
    ("serie a", ["serie a", "liga italiana"]),
    ("copa libertadores", ["libertadores", "copa libertadores"]) ]

/-- Bet-type synonym table of `NLPProcessor._load_bet_type_synonyms`. -/
def bet_type_synonyms : List (String × List String) :=
  [ ("moneyline", ["moneyline", "ganador", "winner", "victoria", "vencedor"]),
    ("spread", ["spread", "handicap", "handicap asiático", "ventaja", "hándicap"]),
    ("over/under", ["over/under", "total goles", "total puntos", "ambos marcan", "gg", "goles"]),
    ("parlay", ["parlay", "combinada", "múltiple", "combinado"]),
    ("prop bet", ["prop bet", "apuesta de propuesta", "jugador específico", "propuesta"]) ]

/-- Common body of the three `normalize_*` methods: lower-case the input and
return the first canonical name whose alias list contains it or which equals
it; otherwise the input passes through unchanged. -/
def normalizeWith (table : List (String × List String)) (name : String) : String :=
  let lower := pyLower name
  match table.find? (fun p => p.2.contains lower || lower == p.1) with
  | some p => p.1
  | none => name

/-- `NLPProcessor.normalize_team_name`. -/
def normalize_team_name (team_name : String) : String :=
  normalizeWith team_synonyms team_name

/-- `NLPProcessor.normalize_tournament_name`. -/
def normalize_tournament_name (tournament_name : String) : String :=
  normalizeWith tournament_synonyms tournament_name

/-- `NLPProcessor.normalize_bet_type`. -/
def normalize_bet_type (bet_type : String) : String :=
  normalizeWith bet_type_synonyms bet_type

/-- The entities structure produced by extraction. -/
structure Entities where
  teams : List String
  tournaments : List String
  dates : List String
  bet_types : List String
  question_type : String
deriving DecidableEq

/-- Non-sports keyword list of `NLPProcessor._extract_entities_fallback`. -/
def non_sports_keywords : List String :=
  ["tiempo", "clima", "noticias", "noticia", "política", "entretenimiento",
   "música", "película", "series", "tecnología", "ciencia", "historia"]

/-- Question-type cue groups of `_extract_entities_fallback`, in dict order. -/
def analysis_cues : List String :=
  ["analiza", "recomienda", "recomendación", "predice", "pronóstico", "qué apuesta"]

def statistics_cues : List String :=
  ["estadísticas", "estadisticas", "datos", "números", "récord", "record", "historial"]

def general_cues : List String :=
  ["quién", "qué", "cuándo", "dónde", "cómo", "información", "details"]

/-- `NLPProcessor._extract_entities_fallback`.  The date resolver
`_extract_dates_with_regex` depends on the wall clock and an external fuzzy
date parser, so it is passed in as a function parameter; everything else is
embedded concretely. -/
def extract_entities_fallback (extractDates : String → List String)
    (query : String) : Entities :=
  let ql := pyLower query
  if non_sports_keywords.any (fun k => strIn k ql) then
    { teams := [], tournaments := [], dates := [], bet_types := [],
      question_type := "non_sports" }
  else
    let teams := team_synonyms.filterMap
      (fun p => if p.2.any (fun a => strIn a ql) then some p.1 else none)
    let tournaments := tournament_synonyms.filterMap
      (fun p => if p.2.any (fun a => strIn a ql) then some p.1 else none)
    let dates := extractDates query
    let bet_types := bet_type_synonyms.filterMap
      (fun p => if p.2.any (fun a => strIn a ql) then some p.1 else none)
    let qt0 :=
      if analysis_cues.any (fun c => strIn c ql) then "análisis y recomendación"
      else if statistics_cues.any (fun c => strIn c ql) then "estadísticas"
      else if general_cues.any (fun c => strIn c ql) then "información general"
      else "general"
    let qt := if qt0 == "general" then "información general" else qt0
    { teams := teams, tournaments := tournaments, dates := dates,
      bet_types := bet_types, question_type := qt }

example : normalize_team_name "Barça" = "barcelona" := rfl
example : normalize_team_name "Zzz" = "Zzz" := rfl
example : (extract_entities_fallback (fun _ => []) "clima de Barcelona hoy").question_type
    = "non_sports" := rfl
example : (extract_entities_fallback (fun _ => []) "analiza al barca").teams
    = ["barcelona"] := rfl

/-- Whitespace class of the stake regex (Python `\s` over the ASCII range). -/
def isPySpace (c : Char) : Bool :=
  c == ' ' || c == '\t' || c == '\n' || c == '\r' || c == '\x0b' || c == '\x0c'

/-- Currency symbols accepted by the stake regex group `(\$|€|£)`. -/
def isCurrency (c : Char) : Bool := c == '$' || c == '€' || c == '£'

/-- Digit-list to number, as `float(match.group(2))` reads an integer run. -/
def digitsToNat (ds : List Char) : ℕ :=
  ds.foldl (fun a c => 10 * a + (c.toNat - 48)) 0

/-- One anchored attempt of the stake regex at the head of `l`:
optional currency symbol, then whitespace, then the digit group. -/
def matchStakeAt (l : List Char) : Option (List Char) :=
  match l with
  | [] => none
  | c :: cs =>
    let rest := if isCurrency c then cs else c :: cs
    match rest.dropWhile isPySpace with
    | d :: ds => if d.isDigit then some (d :: ds.takeWhile Char.isDigit) else none
    | [] => none

/-- `re.search` for the stake pattern of `process_betting_query`
(`chatbot.py` line 117): first position whose anchored attempt succeeds wins;
the value is group 2 converted to a number. -/
def searchStake : List Char → Option ℕ
  | [] => none
  | c :: cs =>
    match matchStakeAt (c :: cs) with
    | some ds => some (digitsToNat ds)
    | none => searchStake cs

/-- Spec-side reading of stake parsing: the maximal digit run starting at the
first digit of the text. -/
def firstDigitRun : List Char → Option (List Char)
  | [] => none
  | c :: cs => if c.isDigit then some (c :: cs.takeWhile Char.isDigit) else firstDigitRun cs

/-- Spec-side stake: the value of the first decimal numeral in the query,
independent of any surrounding currency decoration. -/
def firstStake (l : List Char) : Option ℕ := (firstDigitRun l).map digitsToNat

example : searchStake "Apuesta $50 a Barcelona".data = some 50 := rfl
example : searchStake "pon 20 euros al madrid".data = some 20 := rfl
example : searchStake "apuesta al barca".data = none := rfl

/-- A pending simulated bet as stored in the session context
(`chatbot.py` lines 151-157). -/
structure PendingBet where
  fixture_id : JValue
  market_type : String
  selection : String
  stake : ℚ
  potential_winnings : ℚ

/-- Team-field resolution with Python `or`-chaining ending in the empty
string, as in `SportsBettingChatbot._filter_odds_by_entities`. -/
def teamField (fs : List (String × JValue)) (keys : List String) : JValue :=
  (keys.foldr (fun k acc => pyGetOr (jGet fs k) acc) (some (.jstr ""))).getD (.jstr "")

/-- `SportsBettingChatbot._filter_odds_by_entities` (`chatbot.py` 192-224):
keep dict records whose home or away team contains one of the entity teams
(case-insensitively); with no entity teams, keep every dict record. -/
def filter_odds_by_entities (odds_data : List JValue) (e : Entities) : List JValue :=
  odds_data.filter (fun o =>
    match o with
    | .jobj fs =>
        let hl := pyLower (pyStr (teamField fs ["home_team", "homeTeam", "home", "team1"]))
        let al := pyLower (pyStr (teamField fs ["away_team", "awayTeam", "away", "team2"]))
        if e.teams.isEmpty then true
        else e.teams.any (fun t => strIn (pyLower t) hl || strIn (pyLower t) al)
    | _ => false)

/-- Short-circuiting `any(team in o["home_team"].lower() or team in
o["away_team"].lower() for team in normalized_teams)` of the partial-match
retry (`chatbot.py` 130-133); direct indexing and bare `.lower()` raise. -/
def anyTeamMatch (o : JValue) : List String → Except String Bool
  | [] => .ok false
  | t :: rest => do
    let h ← jGetExn o "home_team"
    let hl ← lowerExn h
    if strIn t hl then .ok true
    else do
      let a ← jGetExn o "away_team"
      let al ← lowerExn a
      if strIn t al then .ok true
      else anyTeamMatch o rest

/-- The retry list comprehension of `process_betting_query` (left to right,
aborting at the first raised exception). -/
def retryFilter (odds_data : List JValue) (normalized_teams : List String) :
    Except String (List JValue) :=
  odds_data.foldlM (fun acc o => do
    let keep ← anyTeamMatch o normalized_teams
    pure (if keep then acc ++ [o] else acc)) []

/-- The two odds-filtering phases of `process_betting_query`
(`chatbot.py` 125-133): entity filtering, then the partial-match retry when
that yields nothing and teams were mentioned. -/
def betting_filtered_odds (e : Entities) (odds_data : List JValue) :
    Except String (List JValue) :=
  let filtered := filter_odds_by_entities odds_data e
  if filtered.isEmpty && !e.teams.isEmpty then
    retryFilter odds_data (e.teams.map normalize_team_name)
  else .ok filtered

/-- `SportsBettingChatbot._determine_bet_selection` (`chatbot.py` 226-241). -/
def determine_bet_selection (e : Entities) (odds_data : JValue) : String :=
  if !pyTruthy odds_data then "home_win"
  else
    match odds_data with
    | .jobj _ =>
        match e.bet_types with
        | [] => "home_win"
        | bt :: _ =>
            let b := pyLower bt
            if strIn "draw" b || strIn "empate" b then "draw"
            else if strIn "away" b || strIn "visitante" b then "away_win"
            else "home_win"
    | _ => "home_win"

/-- Return sites of `process_betting_query`, tagged by the message each
renders: the no-odds apology, the analysis proposal ending in the
confirmation question, and the request for a stake. -/
inductive BetQueryResponse where
  | noOddsMsg
  | proposalMsg (home away selection : String) (quoteShown : Option JValue)
      (stake pw : ℚ)
  | needStakeMsg

/-- `SportsBettingChatbot.process_betting_query` (`chatbot.py` 114-161).
The odds list obtained from `get_relevant_data(entities)["odds"]` is a
parameter.  The result pairs the response with the pending-bet context write
performed (`none` = no write).  Exceptions follow Python evaluation order:
the retry comprehension may raise; on the proposal path `["odds"]`,
`["home_team"]`, `["away_team"]` and finally `["id"]` are indexed directly. -/
def process_betting_query (query : String) (e : Entities)
    (odds_data : List JValue) :
    Except String (BetQueryResponse × Option PendingBet) :=
  let stake := searchStake query.data
  match betting_filtered_odds e odds_data with
  | .error err => .error err
  | .ok [] => .ok (.noOddsMsg, none)
  | .ok (first :: _) =>
    match stake with
    | none => .ok (.needStakeMsg, none)
    | some st =>
      if st = 0 then .ok (.needStakeMsg, none)
      else
        let selection := determine_bet_selection e first
        match jGetExn first "odds" with
        | .error err => .error err
        | .ok oddsField =>
          match (match oddsField with
                 | .jobj ofs =>
                     (match jGet ofs selection with
                      | some (.jnum q) => Except.ok q
                      | some _ => Except.error "TypeError: unsupported operand"
                      | none => Except.ok 1)
                 | _ => Except.error "AttributeError: get") with
          | .error err => .error err
          | .ok price =>
            let pw := (st : ℚ) * price
            match jGetExn first "home_team" with
            | .error err => .error err
            | .ok home =>
              match jGetExn first "away_team" with
              | .error err => .error err
              | .ok away =>
                let quoteShown := (match oddsField with
                  | .jobj ofs => jGet ofs selection
                  | _ => none)
                match jGetExn first "id" with
                | .error err => .error err
                | .ok fid =>
                    .ok (.proposalMsg (pyStr home) (pyStr away) selection
                           quoteShown (st : ℚ) pw,
                         some { fixture_id := fid, market_type := "moneyline",
                                selection := selection, stake := (st : ℚ),
                                potential_winnings := pw })

/-- The odds quote of the betting-flow scenario. -/
def scenario_quote : JValue :=
  .jobj [("fixture_id", .jnum 1), ("home_team", .jstr "Barcelona"),
         ("away_team", .jstr "Real Madrid"),
         ("odds", .jobj [("home_win", .jnum (21/10)), ("draw", .jnum (32/10)),
                         ("away_win", .jnum (35/10))])]

/-- Entities extracted for the scenario query. -/
def scenario_entities : Entities :=
  { teams := ["barcelona"], tournaments := [], dates := [], bet_types := [],
    question_type := "información general" }


/-- Modelled from the spec: the simulated bet-placement collaborator
(`self.api_client.place_bet`, spec section 6) is absent from
`SportsAPIClient` in the source tree; per the spec it takes
`(fixture_id, market_type, selection, stake)` and returns
`{success: bool, bet_id, status}` or absence. -/
structure PlaceBetResult where
  success : Bool
  bet_id : Option String
  status : Option String

/-- One invocation of the bet-placement collaborator, with its arguments. -/
structure PlacementCall where
  fixture_id : JValue
  market_type : String
  selection : String
  stake : ℚ

/-- Per-session context dictionary (`ConversationContextManager`), with one
field per key the chatbot ever writes; `none` models an absent key. -/
structure SessionCtx where
  last_mentioned_teams : Option (List String) := none
  last_mentioned_tournament : Option String := none
  preferred_bet_types : Option (List String) := none
  pending_bet : Option PendingBet := none

/-- Return sites of `confirm_bet`: no pending bet, the confirmation message
(with `result.get` defaults applied), or the failure message. -/
inductive ConfirmResponse where
  | noPendingMsg
  | confirmedMsg (bet_id status : String) (stake pw : ℚ)
  | failedMsg

/-- Result of `confirm_bet`: response, updated context, and the list of
collaborator invocations performed. -/
structure ConfirmOut where
  response : ConfirmResponse
  ctx : SessionCtx
  calls : List PlacementCall

/-- `SportsBettingChatbot.confirm_bet` (`chatbot.py` 163-190) over the
spec-modelled placement collaborator `placeBet`. -/
def confirm_bet (placeBet : JValue → String → String → ℚ → Option PlaceBetResult)
    (ctx : SessionCtx) : ConfirmOut :=
  match ctx.pending_bet with
  | none => { response := .noPendingMsg, ctx := ctx, calls := [] }
  | some pb =>
    let result := placeBet pb.fixture_id pb.market_type pb.selection pb.stake
    let resp : ConfirmResponse :=
      match result with
      | some r =>
          if r.success then
            .confirmedMsg (r.bet_id.getD "SIM-001") (r.status.getD "confirmada")
              pb.stake pb.potential_winnings
          else .failedMsg
      | none => .failedMsg
    { response := resp, ctx := { ctx with pending_bet := none },
      calls := [{ fixture_id := pb.fixture_id, market_type := pb.market_type,
                  selection := pb.selection, stake := pb.stake }] }

/-- A single `context_manager.update_context` call issued by
`_update_context`, tagged by its key. -/
inductive CtxWrite where
  | teams (ts : List String)
  | tournament (t : String)
  | betTypes (bs : List String)
  | pendingBet (pb : Option PendingBet)

/-- The writes `SportsBettingChatbot._update_context` (`chatbot.py` 460-468)
issues for given entities, in source order. -/
def update_context_writes (e : Entities) : List CtxWrite :=
  (match e.teams with
   | [] => []
   | ts => [CtxWrite.teams ts]) ++
  (match e.tournaments with
   | [] => []
   | t :: _ => [CtxWrite.tournament t]) ++
  (match e.bet_types with
   | [] => []
   | bs => [CtxWrite.betTypes bs])

/-- Effect of one context write on the session dictionary. -/
def applyWrite (ctx : SessionCtx) : CtxWrite → SessionCtx
  | .teams ts => { ctx with last_mentioned_teams := some ts }
  | .tournament t => { ctx with last_mentioned_tournament := some t }
  | .betTypes bs => { ctx with preferred_bet_types := some bs }
  | .pendingBet pb => { ctx with pending_bet := pb }

/-- `SportsBettingChatbot._update_context` as a context transformer. -/
def update_context (ctx : SessionCtx) (e : Entities) : SessionCtx :=
  (update_context_writes e).foldl applyWrite ctx

/-- The dictionary built by `NLPProcessor.get_relevant_data`.  The key
`sports` is never written by that function, so its emptiness test in
`process_query` always passes; only `fixtures` and `odds` are modelled. -/
structure RelData where
  fixtures : List JValue
  odds : List JValue

/-- `get_relevant_data` output together with the `fixture_id` filter the odds
query was issued with (`none` = the parameter was omitted). -/
structure RelOut where
  data : RelData
  oddsFixtureParam : Option JValue

/-- Team test for one fixture in `get_relevant_data` (`nlp_processor.py`
288-304): non-dicts are dropped; the alias-resolved team fields are
lower-cased with a bare `.lower()` (raising on non-strings) and matched
against the entity teams as substrings. -/
def fixtureMatchesTeams (f : JValue) (teams : List String) : Except String Bool :=
  match f with
  | .jobj fs => do
      let home := teamField fs ["home_team", "homeTeam", "home"]
      let away := teamField fs ["away_team", "awayTeam", "away"]
      let hl ← lowerExn home
      let al ← lowerExn away
      pure (teams.any (fun t => strIn (pyLower t) hl || strIn (pyLower t) al))
  | _ => pure false

/-- The team-filtering loop over fixtures, preserving order. -/
def filterFixturesByTeams (fixtures : List JValue) (teams : List String) :
    Except String (List JValue) :=
  fixtures.foldlM (fun acc f => do
    let keep ← fixtureMatchesTeams f teams
    pure (if keep then acc ++ [f] else acc)) []

/-- First-fixture id resolution of `get_relevant_data` (`nlp_processor.py`
309-313): `fixture.get("id") or fixture.get("fixture_id") or
fixture.get("_id")`, raising on a non-dict first fixture. -/
def firstFixtureId : List JValue → Except String (Option JValue)
  | [] => .ok none
  | f :: _ =>
      match f with
      | .jobj fs =>
          .ok (pyGetOr (jGet fs "id")
            (pyGetOr (jGet fs "fixture_id") (jGet fs "_id")))
      | _ => .error "AttributeError: get"

/-- Omission of a falsy `fixture_id` query parameter, as the params dict of
`SportsAPIClient.get_odds` is built (`if fixture_id:`). -/
def truthyParam : Option JValue → Option JValue
  | some v => if pyTruthy v then some v else none
  | none => none

/-- `NLPProcessor.get_relevant_data` (`nlp_processor.py` 269-317) over the
upstream transport oracles.  `upstreamFixtures` takes the tournament and date
parameters; `upstreamOdds` takes the tournament and the optional `fixture_id`
parameter (omitted when falsy, as `get_odds` builds its params dict). -/
def get_relevant_data (ents : Entities)
    (upstreamFixtures : Option String → Option String → Option JValue)
    (upstreamOdds : Option String → Option JValue → Option JValue) :
    Except String RelOut :=
  let tournament := ents.tournaments.head?
  let date := ents.dates.head?
  let fixtures := get_fixtures (upstreamFixtures tournament date)
  if fixtures.isEmpty then
    .ok { data := { fixtures := fixtures,
                    odds := get_odds (upstreamOdds tournament none) },
          oddsFixtureParam := none }
  else
    match (if !ents.teams.isEmpty then filterFixturesByTeams fixtures ents.teams
           else .ok fixtures) with
    | .error err => .error err
    | .ok fixtures2 =>
        match firstFixtureId fixtures2 with
        | .error err => .error err
        | .ok fid =>
            let param := truthyParam fid
            .ok { data := { fixtures := fixtures2,
                            odds := get_odds (upstreamOdds tournament param) },
                  oddsFixtureParam := param }

/-- External collaborators of one `process_query` turn: entity extraction
(whose generative path may fail), the upstream transport, response
generation, and the spec-modelled bet placement. -/
structure Oracles where
  extract : String → Except String Entities
  upstreamFixtures : Option String → Option String → Option JValue
  upstreamOdds : Option String → Option JValue → Option JValue
  generate : String → Except String String
  placeBet : JValue → String → String → ℚ → Option PlaceBetResult

/-- Return sites of `process_query`, tagged by the message each renders. -/
inductive QueryResponse where
  | confirm (c : ConfirmResponse)
  | nonSportsMsg
  | noDataMsg (e : Entities)
  | generated (s : String)
  | techDifficultiesMsg

/-- Result of one `process_query` turn: response, updated session context,
and the collaborator invocations performed. -/
structure QueryOut where
  response : QueryResponse
  ctx : SessionCtx
  calls : List PlacementCall

/-- The confirmation keyword list of `process_query` (`chatbot.py` line 49). -/
def confirmation_keywords : List String := ["sí", "si", "confirmar", "sí confirmar"]

/-- The non-confirmation part of `process_query` (`chatbot.py` 54-81):
extraction, non-sports shortcut, data fetch, no-data shortcut, generation,
then the context update. -/
def run_pipeline (o : Oracles) (query : String) (ctx : SessionCtx) :
    Except String QueryOut :=
  match o.extract query with
  | .error err => .error err
  | .ok ents =>
    if ents.question_type == "non_sports" then
      .ok { response := .nonSportsMsg, ctx := ctx, calls := [] }
    else
      match get_relevant_data ents o.upstreamFixtures o.upstreamOdds with
      | .error err => .error err
      | .ok rel =>
        if rel.data.fixtures.isEmpty && rel.data.odds.isEmpty then
          .ok { response := .noDataMsg ents, ctx := ctx, calls := [] }
        else
          match o.generate query with
          | .error err => .error err
          | .ok resp =>
              .ok { response := .generated resp, ctx := update_context ctx ents,
                    calls := [] }

/-- `process_query` before the top-level exception handler: the confirmation
shortcut (keyword and truthy pending bet), else the normal pipeline. -/
def process_query_core (o : Oracles) (query : String) (ctx : SessionCtx) :
    Except String QueryOut :=
  if confirmation_keywords.contains (pyLower query) && ctx.pending_bet.isSome then
    let c := confirm_bet o.placeBet ctx
    .ok { response := .confirm c.response, ctx := c.ctx, calls := c.calls }
  else run_pipeline o query ctx

/-- `SportsBettingChatbot.process_query` (`chatbot.py` 44-86): any exception
from the turn pipeline is caught and converted to the fixed
technical-difficulties message of `_generate_error_response`. -/
def process_query (o : Oracles) (query : String) (ctx : SessionCtx) : QueryOut :=
  match process_query_core o query ctx with
  | .ok out => out
  | .error _ => { response := .techDifficultiesMsg, ctx := ctx, calls := [] }

/-- C1: processing the betting query `Apuesta $50 a Barcelona` against an
odds list containing the quote with `fixture_id` 1 never reaches the
pending-bet write: building the pending-bet dictionary indexes the quote with
key `id`, which the quote does not have, so the turn raises `KeyError` and no
pending bet is stored (the spec expects a stored bet with stake 50, selection
`home_win`, potential winnings 105.0 and a transition to awaiting
confirmation). -/
theorem betting_query_raises_keyerror :
    process_betting_query "Apuesta $50 a Barcelona" scenario_entities
      [scenario_quote] = .error "KeyError: id" := rfl

/-- C3: fixtures shape normalization — a `matches`-keyed object yields
exactly the inner list, a plain list is returned exactly, and an absent
response (transport error, timeout, non-200, non-JSON) yields the fixed,
non-empty demonstration fixture list. -/
theorem fixtures_shape_normalization :
    (∀ L : List JValue, get_fixtures (some (.jobj [("matches", .jarr L)])) = L) ∧
    (∀ L : List JValue, get_fixtures (some (.jarr L)) = L) ∧
    get_fixtures none = demo_fixtures ∧ demo_fixtures.isEmpty = false :=
  ⟨fun _ => rfl, fun _ => rfl, rfl, rfl⟩

/-- C4 counterexample: the claim predicts that an object odds response is
searched for the candidate keys `odds`, `data`, `prices`, `quotes` and the
first list-valued field is returned, so `{"odds": []}` would yield `[]`;
the code instead wraps the dict as a one-element list. -/
theorem odds_object_not_key_searched :
    get_odds (some (.jobj [("odds", .jarr [])])) ≠ [] := by
  intro h
  have h2 : ([.jobj [("odds", .jarr [])]] : List JValue) = [] := h
  exact List.noConfusion h2

/-- Spec-side description of the `fixture_id` the odds query is issued with:
the id of the first fixture surviving team filtering, when present and
truthy; otherwise the query is unfiltered. -/
def truthyFirstId : List JValue → Option JValue
  | [] => none
  | f :: _ =>
      match f with
      | .jobj fs =>
          truthyParam (pyGetOr (jGet fs "id")
            (pyGetOr (jGet fs "fixture_id") (jGet fs "_id")))
      | _ => none

theorem firstFixtureId_truthy (l : List JValue) (fid : Option JValue)
    (h : firstFixtureId l = .ok fid) : truthyParam fid = truthyFirstId l := by
  cases l with
  | nil =>
      simp only [firstFixtureId] at h
      cases h
      rfl
  | cons f rest =>
      cases f with
      | jobj fs => cases h; rfl
      | jnull => exact Except.noConfusion h
      | jbool b => exact Except.noConfusion h
      | jnum q => exact Except.noConfusion h
      | jstr s => exact Except.noConfusion h
      | jarr xs => exact Except.noConfusion h

/-- C4 (amended): an object odds response is wrapped as the one-element list
containing it (unless its status is `Inactive`); and the odds query is
issued with the id of the first fixture surviving team filtering when that
id is present and truthy, and unfiltered otherwise. -/
theorem odds_object_wrapped_and_query_param (ents : Entities)
    (upF : Option String → Option String → Option JValue)
    (upO : Option String → Option JValue → Option JValue)
    (out : RelOut) (h : get_relevant_data ents upF upO = .ok out) :
    (∀ fs : List (String × JValue), statusInactive (.jobj fs) = false →
        get_odds (some (.jobj fs)) = [.jobj fs]) ∧
    out.oddsFixtureParam = truthyFirstId out.data.fixtures ∧
    out.data.odds = get_odds (upO ents.tournaments.head?
        (truthyFirstId out.data.fixtures)) := by
  refine ⟨fun fs hfs => by simp [get_odds, hfs], ?_⟩
  unfold get_relevant_data at h
  simp only at h
  generalize hfix : get_fixtures (upF ents.tournaments.head? ents.dates.head?) = fixtures at h
  by_cases hempty : fixtures.isEmpty = true
  · rw [if_pos hempty] at h
    cases h
    have hnil := List.isEmpty_iff.mp hempty
    subst hnil
    simp [truthyFirstId]
  · rw [if_neg hempty] at h
    generalize hfil : (if !ents.teams.isEmpty then filterFixturesByTeams fixtures ents.teams
                       else Except.ok fixtures) = fres at h
    cases fres with
    | error e => cases h
    | ok fixtures2 =>
        dsimp only at h
        cases hid : firstFixtureId fixtures2 with
        | error e => rw [hid] at h; cases h
        | ok fid =>
            rw [hid] at h
            cases h
            have ht := firstFixtureId_truthy fixtures2 fid hid
            simp [ht]

/-- C5: any query containing a non-sports keyword short-circuits the
deterministic fallback extractor to `question_type = non_sports` with empty
team, tournament, date and bet-type lists, whatever else the query holds. -/
theorem fallback_non_sports_shortcircuit
    (extractDates : String → List String) (query : String)
    (h : ∃ k ∈ non_sports_keywords, strIn k (pyLower query) = true) :
    extract_entities_fallback extractDates query =
      { teams := [], tournaments := [], dates := [], bet_types := [],
        question_type := "non_sports" } := by
  have ha : non_sports_keywords.any (fun k => strIn k (pyLower query)) = true := by
    rcases h with ⟨k, hk, hs⟩
    exact List.any_eq_true.mpr ⟨k, hk, hs⟩
  simp [extract_entities_fallback, ha]

/-- C5 witness: a query that names a team, a tournament, a bet type and a
date but also the keyword `clima` is classified `non_sports` with all entity
lists empty. -/
theorem fallback_non_sports_shortcircuit_witness :
    (∃ k ∈ non_sports_keywords,
        strIn k (pyLower "Clima de hoy y ganador Barça en la Premier 20/03/2024") = true) ∧
    extract_entities_fallback (fun _ => ["2024-03-20"])
        "Clima de hoy y ganador Barça en la Premier 20/03/2024" =
      { teams := [], tournaments := [], dates := [], bet_types := [],
        question_type := "non_sports" } :=
  ⟨⟨"clima", by decide, by decide⟩,
   fallback_non_sports_shortcircuit _ _ ⟨"clima", by decide, by decide⟩⟩

/-- C2: with a pending bet stored, processing `sí` invokes the bet-placement
collaborator exactly once, with exactly the stored pending-bet fields, and
clears the pending bet afterwards — whatever the placement outcome, since the
oracle (including its result for this call) is universally quantified. -/
theorem confirm_places_once_and_clears (o : Oracles) (ctx : SessionCtx)
    (pb : PendingBet) (h : ctx.pending_bet = some pb) :
    (process_query o "sí" ctx).calls =
      [{ fixture_id := pb.fixture_id, market_type := pb.market_type,
         selection := pb.selection, stake := pb.stake }] ∧
    (process_query o "sí" ctx).ctx.pending_bet = none := by
  have hcond : (confirmation_keywords.contains (pyLower "sí")
      && ctx.pending_bet.isSome) = true := by
    rw [h]; rfl
  unfold process_query process_query_core
  rw [if_pos hcond]
  unfold confirm_bet
  rw [h]
  exact ⟨rfl, rfl⟩

/-- Concrete pending bet used by witnesses. -/
def pbW : PendingBet :=
  { fixture_id := .jnum 1, market_type := "moneyline", selection := "home_win",
    stake := 50, potential_winnings := 105 }

/-- Oracle bundle used by witnesses: the generative collaborator fails, the
upstream transport returns nothing, placement returns absence. -/
def oraclesW : Oracles :=
  { extract := fun _ => .error "unavailable",
    upstreamFixtures := fun _ _ => none,
    upstreamOdds := fun _ _ => none,
    generate := fun _ => .error "unavailable",
    placeBet := fun _ _ _ _ => none }

/-- C2 witness: a session holding the concrete pending bet, confirmed with
`sí` against a placement collaborator that returns absence. -/
theorem confirm_places_once_and_clears_witness :
    (process_query oraclesW "sí" { pending_bet := some pbW }).calls =
      [{ fixture_id := .jnum 1, market_type := "moneyline",
         selection := "home_win", stake := 50 }] ∧
    (process_query oraclesW "sí" { pending_bet := some pbW }).ctx.pending_bet = none :=
  confirm_places_once_and_clears oraclesW { pending_bet := some pbW } pbW rfl

/-- C8: whenever any step of the turn pipeline raises, `process_query`
returns the fixed technical-difficulties response with the session context
untouched, instead of propagating the exception. -/
theorem process_query_catches_errors (o : Oracles) (q : String) (ctx : SessionCtx)
    (err : String) (h : process_query_core o q ctx = .error err) :
    process_query o q ctx =
      { response := .techDifficultiesMsg, ctx := ctx, calls := [] } := by
  unfold process_query
  rw [h]

/-- C8 witness: with the extraction collaborator failing, a plain query
yields the technical-difficulties response. -/
theorem process_query_catches_errors_witness :
    process_query oraclesW "hola" {} =
      { response := .techDifficultiesMsg, ctx := {}, calls := [] } :=
  process_query_catches_errors oraclesW "hola" {} "unavailable" rfl

/-- C9: the context update never writes the pending-bet key, leaves each
context field unchanged when the corresponding entity list is empty, and
leaves the whole context unchanged when teams, tournaments and bet types are
all empty. -/
theorem update_context_frame (ctx : SessionCtx) (e : Entities) :
    (e.teams = [] →
      (update_context ctx e).last_mentioned_teams = ctx.last_mentioned_teams) ∧
    (e.tournaments = [] →
      (update_context ctx e).last_mentioned_tournament = ctx.last_mentioned_tournament) ∧
    (e.bet_types = [] →
      (update_context ctx e).preferred_bet_types = ctx.preferred_bet_types) ∧
    (update_context ctx e).pending_bet = ctx.pending_bet ∧
    (∀ w ∈ update_context_writes e, ∀ pb, w ≠ CtxWrite.pendingBet pb) ∧
    (e.teams = [] → e.tournaments = [] → e.bet_types = [] →
      update_context ctx e = ctx) := by
  rcases e with ⟨ts, tos, ds, bs, qt⟩
  refine ⟨?_, ?_, ?_, ?_, ?_, ?_⟩
  · rintro rfl
    cases tos <;> cases bs <;> rfl
  · rintro rfl
    cases ts <;> cases bs <;> rfl
  · rintro rfl
    cases ts <;> cases tos <;> rfl
  · cases ts <;> cases tos <;> cases bs <;> rfl
  · intro w hw pb hwpb
    subst hwpb
    cases ts <;> cases tos <;> cases bs <;>
      simp [update_context_writes] at hw
  · rintro rfl rfl rfl
    rfl

/-- C9 witness: entities with no teams, tournaments or bet types leave a
concrete context unchanged and issue no pending-bet write. -/
theorem update_context_frame_witness :
    update_context { pending_bet := some pbW }
        { teams := [], tournaments := [], dates := ["2024-03-20"], bet_types := [],
          question_type := "información general" } =
      { pending_bet := some pbW } :=
  (update_context_frame { pending_bet := some pbW }
      { teams := [], tournaments := [], dates := ["2024-03-20"], bet_types := [],
        question_type := "información general" }).2.2.2.2.2 rfl rfl rfl

theorem run_pipeline_no_confirm (o : Oracles) (q : String) (ctx : SessionCtx)
    (out : QueryOut) (h : run_pipeline o q ctx = .ok out) :
    ∀ c, out.response ≠ .confirm c := by
  unfold run_pipeline at h
  cases hx : o.extract q with
  | error e => rw [hx] at h; cases h
  | ok ents =>
      rw [hx] at h
      dsimp only at h
      by_cases hq : (ents.question_type == "non_sports") = true
      · rw [if_pos hq] at h
        cases h
        intro c hc
        exact QueryResponse.noConfusion hc
      · rw [if_neg hq] at h
        cases hrel : get_relevant_data ents o.upstreamFixtures o.upstreamOdds with
        | error e => rw [hrel] at h; cases h
        | ok rel =>
            rw [hrel] at h
            dsimp only at h
            by_cases hemp : (rel.data.fixtures.isEmpty && rel.data.odds.isEmpty) = true
            · rw [if_pos hemp] at h
              cases h
              intro c hc
              exact QueryResponse.noConfusion hc
            · rw [if_neg hemp] at h
              cases hg : o.generate q with
              | error e => rw [hg] at h; cases h
              | ok resp =>
                  rw [hg] at h
                  cases h
                  intro c hc
                  exact QueryResponse.noConfusion hc

/-- C10: a confirmation keyword with no pending bet is not answered with a
confirmation or a no-pending-bet message: `process_query` behaves exactly as
the normal pipeline (entity extraction, data fetch, response synthesis) and
its response is never from the confirmation family. -/
theorem confirm_keyword_without_pending_falls_through (o : Oracles) (q : String)
    (ctx : SessionCtx) (hpend : ctx.pending_bet = none)
    (hkw : confirmation_keywords.contains (pyLower q) = true) :
    process_query o q ctx =
      (match run_pipeline o q ctx with
       | .ok out => out
       | .error _ => { response := .techDifficultiesMsg, ctx := ctx, calls := [] }) ∧
    (∀ c, (process_query o q ctx).response ≠ .confirm c) := by
  have hcore : process_query_core o q ctx = run_pipeline o q ctx := by
    unfold process_query_core
    rw [hpend, hkw]
    rfl
  constructor
  · unfold process_query
    rw [hcore]
  · intro c
    unfold process_query
    rw [hcore]
    cases hr : run_pipeline o q ctx with
    | error e =>
        intro hc
        exact QueryResponse.noConfusion hc
    | ok out => exact run_pipeline_no_confirm o q ctx out hr c

/-- C10 witness: query `si` on a session with no pending bet runs the normal
pipeline (here: failing extraction, hence the technical-difficulties
response, not a confirmation response). -/
theorem confirm_keyword_without_pending_falls_through_witness :
    process_query oraclesW "si" {} =
      (match run_pipeline oraclesW "si" {} with
       | .ok out => out
       | .error _ => { response := .techDifficultiesMsg, ctx := {}, calls := [] }) ∧
    (∀ c, (process_query oraclesW "si" {}).response ≠ .confirm c) :=
  confirm_keyword_without_pending_falls_through oraclesW "si" {} rfl rfl

theorem normalizeWith_canonical_or_id (tbl : List (String × List String))
    (x : String) :
    normalizeWith tbl x = x ∨ ∃ p ∈ tbl, normalizeWith tbl x = p.1 := by
  simp only [normalizeWith]
  cases hf : tbl.find? (fun p => p.2.contains (pyLower x) || pyLower x == p.1) with
  | none => exact Or.inl rfl
  | some p => exact Or.inr ⟨p, List.mem_of_find?_eq_some hf, rfl⟩

theorem normalizeWith_idem (tbl : List (String × List String))
    (hcan : ∀ p ∈ tbl, normalizeWith tbl p.1 = p.1) (x : String) :
    normalizeWith tbl (normalizeWith tbl x) = normalizeWith tbl x := by
  rcases normalizeWith_canonical_or_id tbl x with h | ⟨p, hp, h⟩
  · rw [h]
    exact h
  · rw [h]
    exact hcan p hp

theorem normalizeWith_no_match (tbl : List (String × List String)) (x : String)
    (h : ∀ p ∈ tbl, pyLower x ∉ p.2 ∧ pyLower x ≠ p.1) :
    normalizeWith tbl x = x := by
  simp only [normalizeWith]
  have hn : tbl.find? (fun p => p.2.contains (pyLower x) || pyLower x == p.1) = none := by
    apply List.find?_eq_none.mpr
    intro p hp
    have ⟨h1, h2⟩ := h p hp
    simp [h1, h2]
  rw [hn]

theorem team_canonical_fixed :
    ∀ p ∈ team_synonyms, normalizeWith team_synonyms p.1 = p.1 := by decide

theorem tournament_canonical_fixed :
    ∀ p ∈ tournament_synonyms, normalizeWith tournament_synonyms p.1 = p.1 := by decide

theorem bet_type_canonical_fixed :
    ∀ p ∈ bet_type_synonyms, normalizeWith bet_type_synonyms p.1 = p.1 := by decide

/-- C6: each of the three normalizers is idempotent, and an input matching no
alias and no canonical name (case-insensitively) passes through unchanged. -/
theorem normalize_idempotent_and_passthrough (x : String) :
    (normalize_team_name (normalize_team_name x) = normalize_team_name x ∧
     normalize_tournament_name (normalize_tournament_name x) =
       normalize_tournament_name x ∧
     normalize_bet_type (normalize_bet_type x) = normalize_bet_type x) ∧
    ((∀ p ∈ team_synonyms, pyLower x ∉ p.2 ∧ pyLower x ≠ p.1) →
       normalize_team_name x = x) ∧
    ((∀ p ∈ tournament_synonyms, pyLower x ∉ p.2 ∧ pyLower x ≠ p.1) →
       normalize_tournament_name x = x) ∧
    ((∀ p ∈ bet_type_synonyms, pyLower x ∉ p.2 ∧ pyLower x ≠ p.1) →
       normalize_bet_type x = x) :=
  ⟨⟨normalizeWith_idem team_synonyms team_canonical_fixed x,
    normalizeWith_idem tournament_synonyms tournament_canonical_fixed x,
    normalizeWith_idem bet_type_synonyms bet_type_canonical_fixed x⟩,
   fun h => normalizeWith_no_match team_synonyms x h,
   fun h => normalizeWith_no_match tournament_synonyms x h,
   fun h => normalizeWith_no_match bet_type_synonyms x h⟩

/-- C6 witness: idempotence at an alias (`Barça`) and pass-through at an
unknown name (`Deportivo Runtime`). -/
theorem normalize_idempotent_and_passthrough_witness :
    (normalize_team_name (normalize_team_name "Barça") = normalize_team_name "Barça") ∧
    normalize_team_name "Deportivo Runtime" = "Deportivo Runtime" :=
  ⟨(normalize_idempotent_and_passthrough "Barça").1.1,
   (normalize_idempotent_and_passthrough "Deportivo Runtime").2.1 (by decide)⟩

theorem isPySpace_digit_false (c : Char) (h : isPySpace c = true) :
    c.isDigit = false := by
  simp only [isPySpace, Bool.or_eq_true, beq_iff_eq] at h
  rcases h with ((((h | h) | h) | h) | h) | h <;> subst h <;> rfl

theorem isCurrency_digit_false (c : Char) (h : isCurrency c = true) :
    c.isDigit = false := by
  simp only [isCurrency, Bool.or_eq_true, beq_iff_eq] at h
  rcases h with (h | h) | h <;> subst h <;> rfl

theorem firstDigitRun_dropWhile_pySpace (l : List Char) :
    firstDigitRun (l.dropWhile isPySpace) = firstDigitRun l := by
  induction l with
  | nil => rfl
  | cons c cs ih =>
      rw [List.dropWhile_cons]
      by_cases hc : isPySpace c = true
      · simp only [hc, if_true]
        rw [ih]
        have hd := isPySpace_digit_false c hc
        simp [firstDigitRun, hd]
      · simp [hc]

theorem matchCore_firstDigitRun (rest ds : List Char)
    (h : (match rest.dropWhile isPySpace with
          | d :: ds2 => if d.isDigit then some (d :: ds2.takeWhile Char.isDigit) else none
          | [] => none) = some ds) :
    firstDigitRun rest = some ds := by
  rw [← firstDigitRun_dropWhile_pySpace rest]
  cases hdw : rest.dropWhile isPySpace with
  | nil => rw [hdw] at h; cases h
  | cons d ds2 =>
      rw [hdw] at h
      dsimp only at h
      by_cases hd : d.isDigit = true
      · rw [if_pos hd] at h
        cases h
        simp [firstDigitRun, hd]
      · rw [if_neg hd] at h
        cases h

theorem matchStakeAt_some_firstDigitRun (c : Char) (cs ds : List Char)
    (h : matchStakeAt (c :: cs) = some ds) : firstDigitRun (c :: cs) = some ds := by
  simp only [matchStakeAt] at h
  by_cases hcur : isCurrency c = true
  · rw [if_pos hcur] at h
    have h1 := matchCore_firstDigitRun cs ds h
    have hnd := isCurrency_digit_false c hcur
    rw [show firstDigitRun (c :: cs) = firstDigitRun cs by simp [firstDigitRun, hnd]]
    exact h1
  · rw [if_neg hcur] at h
    exact matchCore_firstDigitRun (c :: cs) ds h

theorem matchStakeAt_none_digit_false (c : Char) (cs : List Char)
    (h : matchStakeAt (c :: cs) = none) : c.isDigit = false := by
  by_contra hd0
  rw [Bool.not_eq_false] at hd0
  have hcur : isCurrency c = false := by
    cases hcc : isCurrency c
    · rfl
    · rw [isCurrency_digit_false c hcc] at hd0
      exact Bool.noConfusion hd0
  have hsp : isPySpace c = false := by
    cases hcc : isPySpace c
    · rfl
    · rw [isPySpace_digit_false c hcc] at hd0
      exact Bool.noConfusion hd0
  simp only [matchStakeAt] at h
  rw [if_neg (by simp [hcur])] at h
  rw [List.dropWhile_cons] at h
  simp only [hsp] at h
  rw [if_neg (by simp)] at h
  dsimp only at h
  rw [if_pos hd0] at h
  cases h

/-- C7 (first half, as a standalone equivalence used by the claim theorem):
the stake regex searched over the query equals the spec-side first decimal
numeral, so the optional currency symbol and currency word never change the
parsed value and the first match wins. -/
theorem searchStake_eq_firstStake (l : List Char) :
    searchStake l = firstStake l := by
  induction l with
  | nil => rfl
  | cons c cs ih =>
      cases hm : matchStakeAt (c :: cs) with
      | some ds =>
          have h1 := matchStakeAt_some_firstDigitRun c cs ds hm
          simp only [searchStake, firstStake]
          rw [hm, h1]
          rfl
      | none =>
          have hd := matchStakeAt_none_digit_false c cs hm
          simp only [searchStake, firstStake]
          rw [hm]
          simp only [firstDigitRun, hd]
          rw [if_neg (by simp)]
          exact ih

/-- C7: the stake is parsed as the first decimal numeral in the query text
(the optional currency symbol before it and currency word after it never
change the value, and the first match wins); and with matching odds but no
parseable stake, no pending bet is written and the response asks for the
stake instead of proposing a bet. -/
theorem stake_first_match_and_missing_stake_asks (q : String) (e : Entities)
    (odds_data : List JValue) (l : List JValue) :
    searchStake q.data = firstStake q.data ∧
    (betting_filtered_odds e odds_data = .ok l → l.isEmpty = false →
      searchStake q.data = none →
      process_betting_query q e odds_data = .ok (.needStakeMsg, none)) := by
  refine ⟨searchStake_eq_firstStake q.data, ?_⟩
  intro hfil hne hstake
  unfold process_betting_query
  dsimp only
  rw [hfil]
  cases l with
  | nil => exact Bool.noConfusion hne
  | cons first rest =>
      dsimp only
      rw [hstake]

/-- C7 witness: `Apuesta al Barça` has no parseable stake; the scenario quote
matches, the turn asks for the stake, and no pending bet is written. -/
theorem stake_first_match_and_missing_stake_asks_witness :
    searchStake "Apuesta al Barça".data = firstStake "Apuesta al Barça".data ∧
    process_betting_query "Apuesta al Barça" scenario_entities [scenario_quote] =
      .ok (.needStakeMsg, none) :=
  have h := stake_first_match_and_missing_stake_asks "Apuesta al Barça"
    scenario_entities [scenario_quote] [scenario_quote]
  ⟨h.1, h.2 rfl rfl rfl⟩

/-- Entities with no teams, used by the C4 witness. -/
def entsNoTeams : Entities :=
  { teams := [], tournaments := [], dates := [], bet_types := [],
    question_type := "información general" }

/-- Concrete `get_relevant_data` output for the C4 witness. -/
def relOutW : RelOut :=
  { data := { fixtures := demo_fixtures,
              odds := [.jobj [("odds", .jarr [])]] },
    oddsFixtureParam := some (.jnum 1) }

/-- C4 witness: a dict odds response is wrapped as a singleton, and with the
demonstration fixtures the odds query is issued with the first fixture id. -/
theorem odds_object_wrapped_and_query_param_witness :
    get_odds (some (.jobj [("status", .jstr "Active")]))
      = [.jobj [("status", .jstr "Active")]] ∧
    relOutW.oddsFixtureParam = truthyFirstId relOutW.data.fixtures :=
  have h := odds_object_wrapped_and_query_param entsNoTeams (fun _ _ => none)
    (fun _ _ => some (.jobj [("odds", .jarr [])])) relOutW rfl
  ⟨h.1 _ rfl, h.2.1⟩
